import Mathlib

/-!
Verification of the docker-engine-access client library.

The library exposes two modules, `ImageModule` and `ContainerModule`.  Every
exported function follows one template: build a URL from the daemon base url
plus a fixed path, conditionally append query parameters from optional
arguments (JavaScript truthiness guards), issue one axios request, then map
the response with `.then` and rethrow `x.response.data` in `.catch`.

This file embeds that template shallowly: a request is a record of method,
base url, query-parameter list (in append order) and body/headers; the
response mapping of each function is one of the two `.then` shapes appearing
in the source (`x => x.data` or `x => undefined`), together with the axios
`responseType` the call requests (`logs` and `backup` pass
`responseType: 'stream'`, making `data` a byte stream on resolution and
rejection alike), and the shared `.catch` handler is `Op.run`.  JavaScript
runtime details that the source relies on are modelled explicitly:
`JSON.stringify`, `URLSearchParams` form encoding, `Buffer.toString`
(UTF-8 decoding with replacement characters), base64, and truthiness of
optional arguments.
-/

namespace DockerEngineAccess

/-- JSON values, the wire representation handled by the library.  Object
fields keep their insertion order, matching JavaScript objects. -/
inductive Json where
  | null : Json
  | bool (b : Bool) : Json
  | num (n : Int) : Json
  | str (s : String) : Json
  | arr (elems : List Json) : Json
  | obj (fields : List (String × Json)) : Json

/-- Lowercase hex digit, used by the JSON escape for control characters. -/
def hexLower (n : Nat) : Char :=
  if n < 10 then Char.ofNat (0x30 + n) else Char.ofNat (0x61 + (n - 10))

/-- Uppercase hex digit, used by percent-encoding. -/
def hexUpper (n : Nat) : Char :=
  if n < 10 then Char.ofNat (0x30 + n) else Char.ofNat (0x41 + (n - 10))

/-- How `JSON.stringify` escapes a single character inside a string
literal. -/
def jsonEscapeChar (c : Char) : String :=
  if c = '"' then "\\\""
  else if c = '\\' then "\\\\"
  else if c = Char.ofNat 8 then "\\b"
  else if c = Char.ofNat 9 then "\\t"
  else if c = Char.ofNat 10 then "\\n"
  else if c = Char.ofNat 12 then "\\f"
  else if c = Char.ofNat 13 then "\\r"
  else if c.toNat < 0x20 then
    String.mk ['\\', 'u', '0', '0', hexLower (c.toNat / 16), hexLower (c.toNat % 16)]
  else String.singleton c

/-- `JSON.stringify` of a string value: double quotes around the escaped
characters. -/
def jsonQuote (s : String) : String :=
  "\"" ++ String.join (s.data.map jsonEscapeChar) ++ "\""

mutual

/-- Compact `JSON.stringify` serialization of a JSON value. -/
def Json.stringify : Json → String
  | .null => "null"
  | .bool true => "true"
  | .bool false => "false"
  | .num n => toString n
  | .str s => jsonQuote s
  | .arr es => "[" ++ Json.stringifyArr es ++ "]"
  | .obj fs => "\x7b" ++ Json.stringifyObj fs ++ "\x7d"

/-- Comma-separated serialization of array elements. -/
def Json.stringifyArr : List Json → String
  | [] => ""
  | [x] => x.stringify
  | x :: y :: rest => x.stringify ++ "," ++ Json.stringifyArr (y :: rest)

/-- Comma-separated serialization of object fields. -/
def Json.stringifyObj : List (String × Json) → String
  | [] => ""
  | [(k, v)] => jsonQuote k ++ ":" ++ v.stringify
  | (k, v) :: p :: rest => jsonQuote k ++ ":" ++ v.stringify ++ "," ++ Json.stringifyObj (p :: rest)

end

/-- Field names of a JSON object, in order; empty for non-objects. -/
def Json.objKeys : Json → List String
  | .obj fs => fs.map (fun p => p.1)
  | _ => []

/-- UTF-8 encoding of one Unicode scalar value, as byte values. -/
def charUtf8 (c : Char) : List Nat :=
  let n := c.toNat
  if n < 0x80 then [n]
  else if n < 0x800 then [0xC0 + n / 64, 0x80 + n % 64]
  else if n < 0x10000 then [0xE0 + n / 4096, 0x80 + (n / 64) % 64, 0x80 + n % 64]
  else [0xF0 + n / 262144, 0x80 + (n / 4096) % 64, 0x80 + (n / 64) % 64, 0x80 + n % 64]

/-- UTF-8 encoding of a string, as byte values: the bytes a JavaScript
string occupies on the wire. -/
def utf8Encode (s : String) : List Nat := (s.data.map charUtf8).flatten

/-- U+FFFD, emitted by lossy UTF-8 decoding for invalid input bytes. -/
def replacementChar : Char := Char.ofNat 0xFFFD

/-- Whether a byte is a UTF-8 continuation byte. -/
def isUtf8Cont (b : Nat) : Bool := decide (0x80 ≤ b ∧ b < 0xC0)

/-- Admissible second byte after a three-byte UTF-8 lead byte (excludes
overlong encodings and surrogates). -/
def utf8ThreeSndOk (b c1 : Nat) : Bool :=
  if b = 0xE0 then decide (0xA0 ≤ c1 ∧ c1 < 0xC0)
  else if b = 0xED then decide (0x80 ≤ c1 ∧ c1 < 0xA0)
  else isUtf8Cont c1

/-- Admissible second byte after a four-byte UTF-8 lead byte (excludes
overlong encodings and code points above U+10FFFF). -/
def utf8FourSndOk (b c1 : Nat) : Bool :=
  if b = 0xF0 then decide (0x90 ≤ c1 ∧ c1 < 0xC0)
  else if b = 0xF4 then decide (0x80 ≤ c1 ∧ c1 < 0x90)
  else isUtf8Cont c1

/-- Lossy UTF-8 decoding: invalid bytes become U+FFFD and decoding resumes
at the offending byte.  This is what `Buffer.toString()` does in Node. -/
def utf8DecodeReplace : List Nat → List Char
  | [] => []
  | b :: rest =>
    if b < 0x80 then Char.ofNat b :: utf8DecodeReplace rest
    else if 0xC2 ≤ b ∧ b ≤ 0xDF then
      match rest with
      | c1 :: rest1 =>
        if isUtf8Cont c1 then
          Char.ofNat ((b - 0xC0) * 64 + (c1 - 0x80)) :: utf8DecodeReplace rest1
        else replacementChar :: utf8DecodeReplace (c1 :: rest1)
      | [] => [replacementChar]
    else if 0xE0 ≤ b ∧ b ≤ 0xEF then
      match rest with
      | c1 :: rest1 =>
        if utf8ThreeSndOk b c1 then
          match rest1 with
          | c2 :: rest2 =>
            if isUtf8Cont c2 then
              Char.ofNat ((b - 0xE0) * 4096 + (c1 - 0x80) * 64 + (c2 - 0x80)) ::
                utf8DecodeReplace rest2
            else replacementChar :: utf8DecodeReplace (c2 :: rest2)
          | [] => [replacementChar]
        else replacementChar :: utf8DecodeReplace (c1 :: rest1)
      | [] => [replacementChar]
    else if 0xF0 ≤ b ∧ b ≤ 0xF4 then
      match rest with
      | c1 :: rest1 =>
        if utf8FourSndOk b c1 then
          match rest1 with
          | c2 :: rest2 =>
            if isUtf8Cont c2 then
              match rest2 with
              | c3 :: rest3 =>
                if isUtf8Cont c3 then
                  Char.ofNat ((b - 0xF0) * 262144 + (c1 - 0x80) * 4096 +
                      (c2 - 0x80) * 64 + (c3 - 0x80)) :: utf8DecodeReplace rest3
                else replacementChar :: utf8DecodeReplace (c3 :: rest3)
              | [] => [replacementChar]
            else replacementChar :: utf8DecodeReplace (c2 :: rest2)
          | [] => [replacementChar]
        else replacementChar :: utf8DecodeReplace (c1 :: rest1)
      | [] => [replacementChar]
    else replacementChar :: utf8DecodeReplace rest

/-- A Node `Buffer`: a finite byte sequence. -/
def Buffer : Type := List Nat

/-- `Buffer.toString()`: lossy UTF-8 decoding of the bytes. -/
def bufferToString (b : Buffer) : String := String.mk (utf8DecodeReplace b)

/-- `buffer.byteLength`. -/
def Buffer.byteLength (b : Buffer) : Nat := b.length

/-- Base64 alphabet. -/
def base64Digits : List Char :=
  "ABCDEFGHIJKLMNOPQRSTUVWXYZabcdefghijklmnopqrstuvwxyz0123456789+/".data

/-- Base64 digit for a 6-bit value. -/
def base64Char (n : Nat) : Char := base64Digits.getD n 'A'

/-- Standard base64 encoding of a byte sequence, with padding: what
`Buffer.from(s).toString('base64')` produces. -/
def base64Encode : List Nat → String
  | [] => ""
  | [a] => String.mk [base64Char (a / 4), base64Char (a % 4 * 16), '=', '=']
  | [a, b] => String.mk [base64Char (a / 4), base64Char (a % 4 * 16 + b / 16),
      base64Char (b % 16 * 4), '=']
  | a :: b :: c :: rest =>
    String.mk [base64Char (a / 4), base64Char (a % 4 * 16 + b / 16),
      base64Char (b % 16 * 4 + c / 64), base64Char (c % 64)] ++ base64Encode rest

/-- Bytes that the `URLSearchParams` serializer leaves unencoded. -/
def isFormUnreserved (b : Nat) : Bool :=
  decide ((0x30 ≤ b ∧ b ≤ 0x39) ∨ (0x41 ≤ b ∧ b ≤ 0x5A) ∨ (0x61 ≤ b ∧ b ≤ 0x7A) ∨
    b = 0x2A ∨ b = 0x2D ∨ b = 0x2E ∨ b = 0x5F)

/-- One byte rendered by the `application/x-www-form-urlencoded`
serializer: unreserved bytes kept, space as `+`, the rest percent-encoded
with uppercase hex. -/
def formEncodeByte (b : Nat) : String :=
  if isFormUnreserved b then String.singleton (Char.ofNat b)
  else if b = 0x20 then "+"
  else String.mk ['%', hexUpper (b / 16), hexUpper (b % 16)]

/-- `URLSearchParams` serialization of one key or value string. -/
def formEncode (s : String) : String :=
  String.join ((utf8Encode s).map formEncodeByte)

/-- Query string appended by `URL.toString()`: empty when no parameter was
appended, otherwise a leading question mark and ampersand-separated
form-encoded pairs in append order. -/
def renderQuery (ps : List (String × String)) : String :=
  match ps with
  | [] => ""
  | _ => "?" ++ String.intercalate "&" (ps.map fun p => formEncode p.1 ++ "=" ++ formEncode p.2)

/-- HTTP method used by the library. -/
inductive Method where
  | GET : Method
  | POST : Method

/-- Request body: a JavaScript string (sent as its UTF-8 bytes), a raw
buffer, or an object that axios serializes as JSON. -/
inductive Body where
  | text (s : String) : Body
  | bytes (b : Buffer) : Body
  | json (j : Json) : Body

/-- The bytes a body occupies on the wire. -/
def Body.wireBytes : Body → List Nat
  | .text s => utf8Encode s
  | .bytes b => b
  | .json j => utf8Encode j.stringify

/-- An HTTP request as the library builds it: method, base url (the daemon
url plus the fixed path), query parameters in append order, optional body,
and headers (a header whose value is undefined is recorded as `none` and
not sent). -/
structure HttpRequest where
  method : Method
  baseUrl : String
  query : List (String × String)
  body : Option Body
  headers : List (String × Option String)

/-- The full request URL, as produced by `endpoint.toString()`. -/
def HttpRequest.render (r : HttpRequest) : String := r.baseUrl ++ renderQuery r.query

/-- The two `.then` shapes appearing in the source: resolve with the
response data, or resolve with `undefined` discarding the data. -/
inductive Handler where
  | thenData : Handler
  | thenUndefined : Handler

/-- The axios `responseType` option governing what `data` is: the default
(`json`) parses the body into an object; `stream` hands over a live byte
stream instead.  Only `logs` and `backup` pass `responseType: 'stream'`;
every other call leaves the option unset, which axios defaults to
`json`. -/
inductive ResponseType where
  | json : ResponseType
  | stream : ResponseType

/-- One library operation: the request it issues, the response handler it
installs, and the axios `responseType` it requests (defaulted to `json`
when the source passes no option). -/
structure Op where
  req : HttpRequest
  handler : Handler
  responseType : ResponseType := ResponseType.json

/-- What the environment does with the issued request: an HTTP response
with a status and an optional JSON body, or a transport failure (connection
refused, DNS failure, timeout) carrying no response at all. -/
inductive DaemonBehavior where
  | http (status : Nat) (body : Option Json) : DaemonBehavior
  | transportFail (message : String) : DaemonBehavior

/-- A value an operation's promise can reject with: the daemon's parsed
response body rethrown by the catch handler, a byte stream delivering that
body's bytes (when the call requested `responseType: 'stream'`), a
TypeError from reading a property of `undefined`, a locally constructed
`Error`, or the axios transport-error object itself. -/
inductive RejectedValue where
  | thrown (v : Option Json) : RejectedValue
  | thrownStream (v : Option Json) : RejectedValue
  | typeErrorUndefinedRead (prop : String) : RejectedValue
  | jsError (message : String) : RejectedValue
  | axiosTransportError (message : String) : RejectedValue

/-- Final settlement of an operation's promise: resolved with the parsed
data or `undefined`, resolved with a byte stream of the body (stream
response type), or rejected. -/
inductive OpResult where
  | resolved (v : Option Json) : OpResult
  | resolvedStream (v : Option Json) : OpResult
  | rejected (e : RejectedValue) : OpResult

/-- Shared response semantics of every operation, translated from the
source template `.then(...).catch(x => \x7b throw x.response.data \x7d)`:
axios resolves for 2xx statuses and the installed handler maps the data;
for any other status axios rejects with an error whose `response` holds the
daemon body, so the catch handler rethrows `x.response.data`; on a
transport failure `x.response` is `undefined`, so evaluating
`x.response.data` inside the catch handler itself raises a TypeError.
What `data` is depends on the call's `responseType`: the default `json`
yields the parsed body object, while `stream` (passed only by `logs` and
`backup`) yields a byte stream carrying the body's bytes — on resolution
and on rejection alike. -/
def Op.run (o : Op) (behavior : DaemonBehavior) : OpResult :=
  match behavior with
  | .http status data =>
    if 200 ≤ status ∧ status < 300 then
      match o.handler with
      | .thenData =>
        match o.responseType with
        | .json => .resolved data
        | .stream => .resolvedStream data
      | .thenUndefined => .resolved none
    else
      match o.responseType with
      | .json => .rejected (.thrown data)
      | .stream => .rejected (.thrownStream data)
  | .transportFail _ => .rejected (.typeErrorUndefinedRead "data")

/-! ## Data shapes sent as request bodies -/

/-- Encoding of a string array as JSON. -/
def encStrList (xs : List String) : Json := .arr (xs.map Json.str)

/-- Encoding of a string-to-string map (JavaScript object) as JSON; fields
keep their insertion order. -/
def encStrMap (m : List (String × String)) : Json :=
  .obj (m.map fun p => (p.1, Json.str p.2))

/-- Encoding of a `map[string][]string` filter object as JSON. -/
def encStrListMap (m : List (String × List String)) : Json :=
  .obj (m.map fun p => (p.1, encStrList p.2))

/-- One element of a `PortBindings` value: an object with optional
`HostIp`/`HostPort` fields (`JSON.stringify` omits absent fields). -/
structure PortBinding where
  HostIp : Option String
  HostPort : Option String

/-- An optional object field: present fields appear under their key,
absent (undefined) fields are omitted entirely. -/
def optField (k : String) (v : Option Json) : List (String × Json) :=
  match v with
  | some j => [(k, j)]
  | none => []

/-- JSON encoding of a `PortBinding`. -/
def PortBinding.toJson (p : PortBinding) : Json :=
  .obj (optField "HostIp" (p.HostIp.map Json.str) ++
    optField "HostPort" (p.HostPort.map Json.str))

/-- Encoding of the `PortBindings` map. -/
def encPortBindings (m : List (String × List PortBinding)) : Json :=
  .obj (m.map fun p => (p.1, Json.arr (p.2.map PortBinding.toJson)))

/-- The `RestartPolicy` object nested in `HostConfig`: both fields
optional. -/
structure HostRestartPolicy where
  Name : Option String
  MaximumRetryCount : Option Int

/-- JSON encoding of the nested restart policy. -/
def HostRestartPolicy.toJson (r : HostRestartPolicy) : Json :=
  .obj (optField "Name" (r.Name.map Json.str) ++
    optField "MaximumRetryCount" (r.MaximumRetryCount.map Json.num))

/-- One element of `Ulimits`: all fields required. -/
structure Ulimit where
  Name : String
  Soft : Int
  Hard : Int

/-- JSON encoding of a ulimit entry. -/
def Ulimit.toJson (u : Ulimit) : Json :=
  .obj [("Name", .str u.Name), ("Soft", .num u.Soft), ("Hard", .num u.Hard)]

/-- The `LogConfig` object nested in `HostConfig`: both fields optional;
the source field named `Type` is written `«Type»` because plain `Type` is
reserved in Lean. -/
structure LogConfig where
  «Type» : Option String
  Config : Option (List (String × String))

/-- JSON encoding of the log configuration. -/
def LogConfig.toJson (l : LogConfig) : Json :=
  .obj (optField "Type" (l.«Type».map Json.str) ++
    optField "Config" (l.Config.map encStrMap))

/-- `HostConfig` from `host.config.type.ts`, fields in declaration
order. -/
structure HostConfig where
  Binds : List String
  Links : List String
  Memory : Int
  MemorySwap : Int
  MemoryReservation : Int
  NanoCpus : Int
  CpuPercent : Int
  CpuShares : Int
  CpuPeriod : Int
  CpuRealtimePeriod : Int
  CpuRealtimeRuntime : Int
  CpuQuota : Int
  CpusetCpus : String
  CpusetMems : String
  MaximumIOps : Int
  MaximumIOBps : Int
  BlkioWeight : Int
  BlkioWeightDevice : List String
  BlkioDeviceReadBps : List String
  BlkioDeviceReadIOps : List String
  BlkioDeviceWriteBps : List String
  BlkioDeviceWriteIOps : List String
  DeviceRequests : List String
  MemorySwappiness : Int
  OomKillDisable : Bool
  OomScoreAdj : Int
  PidMode : String
  PidsLimit : Int
  PortBindings : List (String × List PortBinding)
  PublishAllPorts : Bool
  Privileged : Bool
  ReadonlyRootfs : Bool
  Dns : List String
  DnsOptions : List String
  DnsSearch : List String
  VolumesFrom : List String
  CapAdd : List String
  CapDrop : List String
  GroupAdd : List String
  RestartPolicy : HostRestartPolicy
  AutoRemove : Bool
  NetworkMode : String
  Devices : List String
  Ulimits : List Ulimit
  LogConfig : LogConfig
  SecurityOpt : List String
  StorageOpt : List (String × String)
  CgroupParent : String
  VolumeDriver : String
  ShmSize : Int

/-- `JSON.stringify` view of a `HostConfig` object: every declared field,
in declaration order, under its exact source name. -/
def HostConfig.toJson (h : HostConfig) : Json :=
  .obj [ ("Binds", encStrList h.Binds)
       , ("Links", encStrList h.Links)
       , ("Memory", .num h.Memory)
       , ("MemorySwap", .num h.MemorySwap)
       , ("MemoryReservation", .num h.MemoryReservation)
       , ("NanoCpus", .num h.NanoCpus)
       , ("CpuPercent", .num h.CpuPercent)
       , ("CpuShares", .num h.CpuShares)
       , ("CpuPeriod", .num h.CpuPeriod)
       , ("CpuRealtimePeriod", .num h.CpuRealtimePeriod)
       , ("CpuRealtimeRuntime", .num h.CpuRealtimeRuntime)
       , ("CpuQuota", .num h.CpuQuota)
       , ("CpusetCpus", .str h.CpusetCpus)
       , ("CpusetMems", .str h.CpusetMems)
       , ("MaximumIOps", .num h.MaximumIOps)
       , ("MaximumIOBps", .num h.MaximumIOBps)
       , ("BlkioWeight", .num h.BlkioWeight)
       , ("BlkioWeightDevice", encStrList h.BlkioWeightDevice)
       , ("BlkioDeviceReadBps", encStrList h.BlkioDeviceReadBps)
       , ("BlkioDeviceReadIOps", encStrList h.BlkioDeviceReadIOps)
       , ("BlkioDeviceWriteBps", encStrList h.BlkioDeviceWriteBps)
       , ("BlkioDeviceWriteIOps", encStrList h.BlkioDeviceWriteIOps)
       , ("DeviceRequests", encStrList h.DeviceRequests)
       , ("MemorySwappiness", .num h.MemorySwappiness)
       , ("OomKillDisable", .bool h.OomKillDisable)
       , ("OomScoreAdj", .num h.OomScoreAdj)
       , ("PidMode", .str h.PidMode)
       , ("PidsLimit", .num h.PidsLimit)
       , ("PortBindings", encPortBindings h.PortBindings)
       , ("PublishAllPorts", .bool h.PublishAllPorts)
       , ("Privileged", .bool h.Privileged)
       , ("ReadonlyRootfs", .bool h.ReadonlyRootfs)
       , ("Dns", encStrList h.Dns)
       , ("DnsOptions", encStrList h.DnsOptions)
       , ("DnsSearch", encStrList h.DnsSearch)
       , ("VolumesFrom", encStrList h.VolumesFrom)
       , ("CapAdd", encStrList h.CapAdd)
       , ("CapDrop", encStrList h.CapDrop)
       , ("GroupAdd", encStrList h.GroupAdd)
       , ("RestartPolicy", h.RestartPolicy.toJson)
       , ("AutoRemove", .bool h.AutoRemove)
       , ("NetworkMode", .str h.NetworkMode)
       , ("Devices", encStrList h.Devices)
       , ("Ulimits", .arr (h.Ulimits.map Ulimit.toJson))
       , ("LogConfig", h.LogConfig.toJson)
       , ("SecurityOpt", encStrList h.SecurityOpt)
       , ("StorageOpt", encStrMap h.StorageOpt)
       , ("CgroupParent", .str h.CgroupParent)
       , ("VolumeDriver", .str h.VolumeDriver)
       , ("ShmSize", .num h.ShmSize) ]

/-- `ContainerConfig` from `container-config.type.ts`, fields in
declaration order.  The index-signature fields (`Volumes`,
`ExposedPorts`, the `EndpointsConfig` map inside `NetworkingConfig`) have
values of TypeScript type `\x7b\x7d`, so they carry arbitrary JSON
values. -/
structure ContainerConfig where
  Hostname : String
  Domainname : String
  User : String
  AttachStdin : Bool
  AttachStdout : Bool
  AttachStderr : Bool
  Tty : Bool
  OpenStdin : Bool
  StdinOnce : Bool
  Env : List String
  Cmd : List String
  Entrypoint : String
  Image : String
  Labels : List (String × String)
  Volumes : List (String × Json)
  WorkingDir : String
  NetworkDisabled : Bool
  MacAddress : String
  ExposedPorts : List (String × Json)
  StopSignal : String
  StopTimeout : Int
  HostConfig : HostConfig
  NetworkingConfig : List (String × Json)

/-- `JSON.stringify` view of a `ContainerConfig`: every declared field, in
declaration order, under its exact source name; this is the body axios
serializes for `container.create`. -/
def ContainerConfig.toJson (c : ContainerConfig) : Json :=
  .obj [ ("Hostname", .str c.Hostname)
       , ("Domainname", .str c.Domainname)
       , ("User", .str c.User)
       , ("AttachStdin", .bool c.AttachStdin)
       , ("AttachStdout", .bool c.AttachStdout)
       , ("AttachStderr", .bool c.AttachStderr)
       , ("Tty", .bool c.Tty)
       , ("OpenStdin", .bool c.OpenStdin)
       , ("StdinOnce", .bool c.StdinOnce)
       , ("Env", encStrList c.Env)
       , ("Cmd", encStrList c.Cmd)
       , ("Entrypoint", .str c.Entrypoint)
       , ("Image", .str c.Image)
       , ("Labels", encStrMap c.Labels)
       , ("Volumes", .obj c.Volumes)
       , ("WorkingDir", .str c.WorkingDir)
       , ("NetworkDisabled", .bool c.NetworkDisabled)
       , ("MacAddress", .str c.MacAddress)
       , ("ExposedPorts", .obj c.ExposedPorts)
       , ("StopSignal", .str c.StopSignal)
       , ("StopTimeout", .num c.StopTimeout)
       , ("HostConfig", c.HostConfig.toJson)
       , ("NetworkingConfig", .obj [("EndpointsConfig", .obj c.NetworkingConfig)]) ]

/-- The nested `RestartPolicy` interface declared next to
`ContainerUpdate`: both fields required. -/
structure RestartPolicy where
  MaximumRetryCount : Int
  Name : String

/-- JSON encoding of `RestartPolicy`. -/
def RestartPolicy.toJson (r : RestartPolicy) : Json :=
  .obj [("MaximumRetryCount", .num r.MaximumRetryCount), ("Name", .str r.Name)]

/-- `ContainerUpdate`, the request body of `container.update`, fields in
declaration order. -/
structure ContainerUpdate where
  BlkioWeight : Int
  CpuShares : Int
  CpuPeriod : Int
  CpuQuota : Int
  CpuRealtimePeriod : Int
  CpuRealtimeRuntime : Int
  CpusetCpus : String
  CpusetMems : String
  Memory : Int
  MemorySwap : Int
  MemoryReservation : Int
  RestartPolicy : RestartPolicy

/-- JSON encoding of a `ContainerUpdate`. -/
def ContainerUpdate.toJson (u : ContainerUpdate) : Json :=
  .obj [ ("BlkioWeight", .num u.BlkioWeight)
       , ("CpuShares", .num u.CpuShares)
       , ("CpuPeriod", .num u.CpuPeriod)
       , ("CpuQuota", .num u.CpuQuota)
       , ("CpuRealtimePeriod", .num u.CpuRealtimePeriod)
       , ("CpuRealtimeRuntime", .num u.CpuRealtimeRuntime)
       , ("CpusetCpus", .str u.CpusetCpus)
       , ("CpusetMems", .str u.CpusetMems)
       , ("Memory", .num u.Memory)
       , ("MemorySwap", .num u.MemorySwap)
       , ("MemoryReservation", .num u.MemoryReservation)
       , ("RestartPolicy", u.RestartPolicy.toJson) ]

/-- Registry credentials for one registry inside the build's
`registryConfig` argument. -/
structure RegistryCred where
  username : String
  password : String

/-- JSON encoding of registry credentials. -/
def RegistryCred.toJson (c : RegistryCred) : Json :=
  .obj [("username", .str c.username), ("password", .str c.password)]

/-- JSON encoding of the whole `registryConfig` map. -/
def encRegistryConfig (m : List (String × RegistryCred)) : Json :=
  .obj (m.map fun p => (p.1, p.2.toJson))

/-! ## Query-parameter building

Each source function guards `searchParams.append` with JavaScript
truthiness of the optional argument.  The combinators below mirror one
`if (x) endpoint.searchParams.append(key, serialize(x))` line each. -/

/-- JavaScript truthiness of an optional boolean argument. -/
def truthyB : Option Bool → Bool
  | some b => b
  | none => false

/-- JavaScript truthiness of an optional number argument (zero is
falsy). -/
def truthyI : Option Int → Bool
  | some n => decide (n ≠ 0)
  | none => false

/-- JavaScript truthiness of an optional string argument (the empty string
is falsy). -/
def truthyS : Option String → Bool
  | some s => decide (s ≠ "")
  | none => false

/-- `if (x) append(key, x.toString())` for a boolean argument. -/
def qBool (k : String) (v : Option Bool) : List (String × String) :=
  match v with
  | some true => [(k, "true")]
  | _ => []

/-- `if (x) append(key, x.toString())` for a number argument. -/
def qInt (k : String) (v : Option Int) : List (String × String) :=
  match v with
  | some n => if n = 0 then [] else [(k, toString n)]
  | none => []

/-- `if (x) append(key, x)` for a string argument. -/
def qStr (k : String) (v : Option String) : List (String × String) :=
  match v with
  | some s => if s = "" then [] else [(k, s)]
  | none => []

/-- `if (x) append(key, JSON.stringify(x))` for a filter-map argument
(objects are always truthy). -/
def qStrListMap (k : String) (v : Option (List (String × List String))) :
    List (String × String) :=
  match v with
  | some m => [(k, (encStrListMap m).stringify)]
  | none => []

/-- `if (x) append(key, JSON.stringify(x))` for a string-map argument. -/
def qStrMap (k : String) (v : Option (List (String × String))) : List (String × String) :=
  match v with
  | some m => [(k, (encStrMap m).stringify)]
  | none => []

/-- `if (x) append(key, JSON.stringify(x))` for a string-array argument. -/
def qStrList (k : String) (v : Option (List String)) : List (String × String) :=
  match v with
  | some xs => [(k, (encStrList xs).stringify)]
  | none => []

/-- `if (tags) tags.forEach(x => append('t', x))` in `image.build`. -/
def qTags (v : Option (List String)) : List (String × String) :=
  match v with
  | some ts => ts.map (fun t => ("t", t))
  | none => []

/-- Whether a query-parameter list contains a parameter under a key. -/
def hasKey (k : String) (ps : List (String × String)) : Bool :=
  ps.any (fun p => p.1 == k)

/-! ## Image operations module -/

namespace ImageModule

/-- `GET /images/json` with optional `all`, `filters`, `sharedSize`,
`digests` query parameters; resolves with the response data. -/
def list (url : String) (all : Option Bool) (filters : Option (List (String × List String)))
    (sharedSize : Option Bool) (digests : Option Bool) : Op :=
  { req := { method := .GET
           , baseUrl := url ++ "/images/json"
           , query := qBool "all" all ++ qStrListMap "filters" filters ++
               qBool "sharedSize" sharedSize ++ qBool "digests" digests
           , body := none
           , headers := [] }
  , handler := .thenData }

/-- `POST /build`: the body is `binary.toString()` (a string, hence the
UTF-8 replacement decoding of the buffer), the `Content-Length` header is
the original buffer's byte length, the optional build options map to query
parameters under their API names, and registry credentials are
base64-JSON-encoded into the `X-Registry-Config` header; resolves with the
response data. -/
def build (url : String) (binary : Buffer) (contentType : Option String)
    (registryConfig : Option (List (String × RegistryCred)))
    (dockerfile : Option String) (tags : Option (List String)) (extraHosts : Option String)
    (remote : Option String) (quiet : Option Bool) (noCache : Option Bool)
    (cacheFrom : Option String) (pull : Option String) (removeIntermediate : Option Bool)
    (forceRemoveIntermediate : Option Bool) (memoryLimit : Option Int) (memorySwap : Option Int)
    (cpuShares : Option Int) (cpuSetCpus : Option String) (cpuPeriod : Option Int)
    (cpuQuota : Option Int) (buildArgs : Option (List (String × String))) (shmSize : Option Int)
    (squash : Option Bool) (labels : Option (List (String × String))) (networkMode : Option String)
    (platform : Option String) (target : Option String) (outputs : Option String) : Op :=
  { req := { method := .POST
           , baseUrl := url ++ "/build"
           , query := qStr "dockerfile" dockerfile ++ qTags tags ++ qStr "extrahosts" extraHosts ++
               qStr "remote" remote ++ qBool "q" quiet ++ qBool "nocache" noCache ++
               qStr "cachefrom" cacheFrom ++ qStr "pull" pull ++ qBool "rm" removeIntermediate ++
               qBool "forcerm" forceRemoveIntermediate ++ qInt "memory" memoryLimit ++
               qInt "memswap" memorySwap ++ qInt "cpushares" cpuShares ++
               qStr "cpusetcpus" cpuSetCpus ++ qInt "cpuperiod" cpuPeriod ++
               qInt "cpuquota" cpuQuota ++ qStrMap "buildargs" buildArgs ++
               qInt "shmsize" shmSize ++ qBool "squash" squash ++ qStrMap "labels" labels ++
               qStr "networkmode" networkMode ++ qStr "platform" platform ++
               qStr "target" target ++ qStr "outputs" outputs
           , body := some (.text (bufferToString binary))
           , headers := [ ("Content-Type", some (contentType.getD "application/x-tar"))
                        , ("Content-Length", some (toString (Buffer.byteLength binary)))
                        , ("X-Registry-Config", registryConfig.map
                            (fun rc => base64Encode (utf8Encode (encRegistryConfig rc).stringify))) ] }
  , handler := .thenData }

/-- `POST /build/prune` with optional `keep-storage`, `all`, `filters`
query parameters; resolves with the response data. -/
def buildPrune (url : String) (keepStorage : Option Int) (all : Option Bool)
    (filters : Option (List (String × List String))) : Op :=
  { req := { method := .POST
           , baseUrl := url ++ "/build/prune"
           , query := qInt "keep-storage" keepStorage ++ qBool "all" all ++
               qStrListMap "filters" filters
           , body := none
           , headers := [] }
  , handler := .thenData }

/-- `POST /images/create`: throws a local `Error` when both or neither of
`binary` and `fromSrc` are supplied; otherwise always appends
`fromSrc` (defaulting to `-`), appends the other optional parameters under
truthiness guards, sends the raw buffer (if any) as the body and the
base64-JSON-encoded auth config in the `X-Registry-Config` header;
resolves with the response data. -/
def create (url : String) (binary : Option Buffer) (authConfig : Option Json)
    (fromImage : Option String) (fromSrc : Option String) (repo : Option String)
    (tag : Option String) (message : Option String) (changes : Option (List String))
    (platform : Option String) : Except RejectedValue Op :=
  if (binary.isNone && fromSrc.isNone) || (binary.isSome && fromSrc.isSome) then
    .error (.jsError "Create mode is not clear. Use fromSrc or binary")
  else
    .ok { req := { method := .POST
                 , baseUrl := url ++ "/images/create"
                 , query := [("fromSrc", fromSrc.getD "-")] ++ qStr "fromImage" fromImage ++
                     qStr "repo" repo ++ qStr "tag" tag ++ qStr "message" message ++
                     qStrList "changes" changes ++ qStr "platform" platform
                 , body := binary.map .bytes
                 , headers := [("X-Registry-Config", authConfig.map
                     (fun a => base64Encode (utf8Encode a.stringify)))] }
        , handler := .thenData }

/-- `GET /images/(name)/json`; resolves with the response data. -/
def inspect (url : String) (name : String) : Op :=
  { req := { method := .GET
           , baseUrl := url ++ "/images/" ++ name ++ "/json"
           , query := []
           , body := none
           , headers := [] }
  , handler := .thenData }

end ImageModule

/-! ## Container operations module -/

namespace ContainerModule

/-- `GET /containers/json` with optional `all`, `limit`, `size`, `filters`
query parameters; resolves with the response data. -/
def list (url : String) (all : Option Bool) (limit : Option Int) (size : Option Bool)
    (filters : Option (List (String × List String))) : Op :=
  { req := { method := .GET
           , baseUrl := url ++ "/containers/json"
           , query := qBool "all" all ++ qInt "limit" limit ++ qBool "size" size ++
               qStrListMap "filters" filters
           , body := none
           , headers := [] }
  , handler := .thenData }

/-- `POST /containers/create` with the configuration object as JSON body
and optional `name`, `platform` query parameters; resolves with the
response data. -/
def create (url : String) (containerConfig : ContainerConfig) (name : Option String)
    (platform : Option String) : Op :=
  { req := { method := .POST
           , baseUrl := url ++ "/containers/create"
           , query := qStr "name" name ++ qStr "platform" platform
           , body := some (.json containerConfig.toJson)
           , headers := [] }
  , handler := .thenData }

/-- `GET /containers/(id)/json` with an optional `size` query parameter;
resolves with the response data. -/
def inspect (url : String) (id : String) (size : Option Bool) : Op :=
  { req := { method := .GET
           , baseUrl := url ++ "/containers/" ++ id ++ "/json"
           , query := qBool "size" size
           , body := none
           , headers := [] }
  , handler := .thenData }

/-- `GET /containers/(id)/top` with an optional `ps_args` query parameter;
resolves with the response data. -/
def top (url : String) (id : String) (psArgs : Option String) : Op :=
  { req := { method := .GET
           , baseUrl := url ++ "/containers/" ++ id ++ "/top"
           , query := qStr "ps_args" psArgs
           , body := none
           , headers := [] }
  , handler := .thenData }

/-- `GET /containers/(id)/logs` with optional query parameters; passes
`responseType: 'stream'` to axios, so the data it resolves or rethrows is
a byte stream. -/
def logs (url : String) (id : String) (follow : Option Bool) (stdout : Option Bool)
    (stderr : Option Bool) (since : Option Int) (untilTime : Option Int)
    (timestamps : Option Bool) (tail : Option String) : Op :=
  { req := { method := .GET
           , baseUrl := url ++ "/containers/" ++ id ++ "/logs"
           , query := qBool "follow" follow ++ qBool "stdout" stdout ++ qBool "stderr" stderr ++
               qInt "since" since ++ qInt "until" untilTime ++ qBool "timestamps" timestamps ++
               qStr "tail" tail
           , body := none
           , headers := [] }
  , handler := .thenData
  , responseType := .stream }

/-- `GET /containers/(id)/changes`; resolves with the response data. -/
def changes (url : String) (id : String) : Op :=
  { req := { method := .GET
           , baseUrl := url ++ "/containers/" ++ id ++ "/changes"
           , query := []
           , body := none
           , headers := [] }
  , handler := .thenData }

/-- `GET /containers/(id)/export`; passes `responseType: 'stream'` to
axios, so the data it resolves or rethrows is a byte stream. -/
def backup (url : String) (id : String) : Op :=
  { req := { method := .GET
           , baseUrl := url ++ "/containers/" ++ id ++ "/export"
           , query := []
           , body := none
           , headers := [] }
  , handler := .thenData
  , responseType := .stream }

/-- `GET /containers/(id)/stats`, always appending `stream=false` and
`one-shot=true`; resolves with the response data. -/
def stats (url : String) (id : String) : Op :=
  { req := { method := .GET
           , baseUrl := url ++ "/containers/" ++ id ++ "/stats"
           , query := [("stream", "false"), ("one-shot", "true")]
           , body := none
           , headers := [] }
  , handler := .thenData }

/-- `POST /containers/(id)/start` with no body; resolves with
`undefined`. -/
def start (url : String) (id : String) : Op :=
  { req := { method := .POST
           , baseUrl := url ++ "/containers/" ++ id ++ "/start"
           , query := []
           , body := none
           , headers := [] }
  , handler := .thenUndefined }

/-- `POST /containers/(id)/stop` with an optional `t` query parameter;
resolves with `undefined`. -/
def stop (url : String) (id : String) (timeout : Option Int) : Op :=
  { req := { method := .POST
           , baseUrl := url ++ "/containers/" ++ id ++ "/stop"
           , query := qInt "t" timeout
           , body := none
           , headers := [] }
  , handler := .thenUndefined }

/-- `POST /containers/(id)/restart` with an optional `t` query parameter;
resolves with `undefined`. -/
def restart (url : String) (id : String) (timeout : Option Int) : Op :=
  { req := { method := .POST
           , baseUrl := url ++ "/containers/" ++ id ++ "/restart"
           , query := qInt "t" timeout
           , body := none
           , headers := [] }
  , handler := .thenUndefined }

/-- `POST /containers/(id)/kill` with an optional `signal` query
parameter; resolves with `undefined`. -/
def kill (url : String) (id : String) (signal : Option String) : Op :=
  { req := { method := .POST
           , baseUrl := url ++ "/containers/" ++ id ++ "/kill"
           , query := qStr "signal" signal
           , body := none
           , headers := [] }
  , handler := .thenUndefined }

/-- `POST /containers/(id)/update` with the update object as JSON body;
resolves with the response data. -/
def update (url : String) (id : String) (config : ContainerUpdate) : Op :=
  { req := { method := .POST
           , baseUrl := url ++ "/containers/" ++ id ++ "/update"
           , query := []
           , body := some (.json config.toJson)
           , headers := [] }
  , handler := .thenData }

/-- `POST /containers/(id)/rename` with a mandatory `name` query
parameter; resolves with `undefined`. -/
def rename (url : String) (id : String) (name : String) : Op :=
  { req := { method := .POST
           , baseUrl := url ++ "/containers/" ++ id ++ "/rename"
           , query := [("name", name)]
           , body := none
           , headers := [] }
  , handler := .thenUndefined }

/-- `POST /containers/(id)/pause`; resolves with `undefined`. -/
def pause (url : String) (id : String) : Op :=
  { req := { method := .POST
           , baseUrl := url ++ "/containers/" ++ id ++ "/pause"
           , query := []
           , body := none
           , headers := [] }
  , handler := .thenUndefined }

/-- `POST /containers/prune`; resolves with `undefined`, discarding the
daemon's response body. -/
def prune (url : String) : Op :=
  { req := { method := .POST
           , baseUrl := url ++ "/containers/prune"
           , query := []
           , body := none
           , headers := [] }
  , handler := .thenUndefined }

end ContainerModule

/-! ## Injectivity of the body serialization

The encoders above lose nothing: two different configurations never
serialize to the same JSON. Together with the exact field-name lists this
captures that the body is the input configuration unmodified -- no field
renaming, no defaulting, no mutation. -/

/-- String-array encoding is injective (stated as an iff for rewriting). -/
theorem encStrList_eq_iff (xs ys : List String) : encStrList xs = encStrList ys ↔ xs = ys := by
  constructor
  · intro h
    exact List.map_injective_iff.mpr (fun a b hab => Json.str.inj hab) (Json.arr.inj h)
  · intro h
    rw [h]

/-- Mapping an injective value encoder over a keyed map is injective. -/
theorem mapPairs_inj (f : α → Json) (hf : Function.Injective f) :
    Function.Injective (fun m : List (String × α) => m.map (fun p => (p.1, f p.2))) := by
  apply List.map_injective_iff.mpr
  intro p q h
  obtain ⟨k, v⟩ := p
  obtain ⟨k', v'⟩ := q
  simp only [Prod.mk.injEq] at h ⊢
  exact ⟨h.1, hf h.2⟩

/-- String-map encoding is injective. -/
theorem encStrMap_eq_iff (m₁ m₂ : List (String × String)) :
    encStrMap m₁ = encStrMap m₂ ↔ m₁ = m₂ := by
  constructor
  · intro h
    exact mapPairs_inj Json.str (fun a b hab => Json.str.inj hab) (Json.obj.inj h)
  · intro h
    rw [h]

/-- Port-binding encoding is injective: the four optional-field shapes
never collide. -/
theorem portBinding_toJson_inj : Function.Injective PortBinding.toJson := by
  intro p q h
  obtain ⟨ip, hp⟩ := p
  obtain ⟨iq, hq⟩ := q
  cases ip <;> cases hp <;> cases iq <;> cases hq <;>
    simp_all [PortBinding.toJson, optField]

/-- Port-bindings map encoding is injective. -/
theorem encPortBindings_eq_iff (m₁ m₂ : List (String × List PortBinding)) :
    encPortBindings m₁ = encPortBindings m₂ ↔ m₁ = m₂ := by
  constructor
  · intro h
    have hval : Function.Injective (fun l : List PortBinding =>
        Json.arr (l.map PortBinding.toJson)) := by
      intro l₁ l₂ hl
      exact List.map_injective_iff.mpr portBinding_toJson_inj (Json.arr.inj hl)
    have h' : m₁.map (fun p => (p.1, Json.arr (p.2.map PortBinding.toJson))) =
        m₂.map (fun p => (p.1, Json.arr (p.2.map PortBinding.toJson))) := Json.obj.inj h
    exact mapPairs_inj _ hval h'
  · intro h
    rw [h]

/-- Restart-policy encoding is injective. -/
theorem hostRestartPolicy_toJson_eq_iff (r₁ r₂ : HostRestartPolicy) :
    r₁.toJson = r₂.toJson ↔ r₁ = r₂ := by
  constructor
  · intro h
    obtain ⟨n₁, m₁⟩ := r₁
    obtain ⟨n₂, m₂⟩ := r₂
    cases n₁ <;> cases m₁ <;> cases n₂ <;> cases m₂ <;>
      simp_all [HostRestartPolicy.toJson, optField]
  · intro h
    rw [h]

/-- Ulimit encoding is injective. -/
theorem ulimit_toJson_inj : Function.Injective Ulimit.toJson := by
  intro u₁ u₂ h
  obtain ⟨n₁, s₁, h₁⟩ := u₁
  obtain ⟨n₂, s₂, h₂⟩ := u₂
  simp_all [Ulimit.toJson]

/-- Ulimit-list encodings compare exactly like the lists. -/
theorem ulimitMap_eq_iff (l₁ l₂ : List Ulimit) :
    l₁.map Ulimit.toJson = l₂.map Ulimit.toJson ↔ l₁ = l₂ :=
  (List.map_injective_iff.mpr ulimit_toJson_inj).eq_iff

/-- Log-config encoding is injective. -/
theorem logConfig_toJson_eq_iff (l₁ l₂ : LogConfig) : l₁.toJson = l₂.toJson ↔ l₁ = l₂ := by
  constructor
  · intro h
    obtain ⟨t₁, c₁⟩ := l₁
    obtain ⟨t₂, c₂⟩ := l₂
    cases t₁ <;> cases c₁ <;> cases t₂ <;> cases c₂ <;>
      simp_all [LogConfig.toJson, optField, encStrMap_eq_iff]
  · intro h
    rw [h]

/-- `HostConfig` serialization is injective: distinct host configurations
have distinct JSON bodies. -/
theorem hostConfig_toJson_inj : Function.Injective HostConfig.toJson := by
  intro a b h
  obtain ⟨a1, a2, a3, a4, a5, a6, a7, a8, a9, a10, a11, a12, a13, a14, a15, a16, a17, a18,
    a19, a20, a21, a22, a23, a24, a25, a26, a27, a28, a29, a30, a31, a32, a33, a34, a35,
    a36, a37, a38, a39, a40, a41, a42, a43, a44, a45, a46, a47, a48, a49⟩ := a
  obtain ⟨b1, b2, b3, b4, b5, b6, b7, b8, b9, b10, b11, b12, b13, b14, b15, b16, b17, b18,
    b19, b20, b21, b22, b23, b24, b25, b26, b27, b28, b29, b30, b31, b32, b33, b34, b35,
    b36, b37, b38, b39, b40, b41, b42, b43, b44, b45, b46, b47, b48, b49⟩ := b
  simp only [HostConfig.toJson, Json.obj.injEq, List.cons.injEq, Prod.mk.injEq,
    Json.num.injEq, Json.str.injEq, Json.bool.injEq, encStrList_eq_iff, encStrMap_eq_iff,
    encPortBindings_eq_iff, hostRestartPolicy_toJson_eq_iff, ulimitMap_eq_iff,
    logConfig_toJson_eq_iff, Json.arr.injEq, true_and, and_true] at h
  simp_all

/-- `ContainerConfig` serialization is injective: distinct configurations
have distinct JSON bodies, so the body determines the input exactly. -/
theorem containerConfig_toJson_inj : Function.Injective ContainerConfig.toJson := by
  intro a b h
  obtain ⟨a1, a2, a3, a4, a5, a6, a7, a8, a9, a10, a11, a12, a13, a14, a15, a16, a17, a18,
    a19, a20, a21, a22, a23⟩ := a
  obtain ⟨b1, b2, b3, b4, b5, b6, b7, b8, b9, b10, b11, b12, b13, b14, b15, b16, b17, b18,
    b19, b20, b21, b22, b23⟩ := b
  simp only [ContainerConfig.toJson, Json.obj.injEq, List.cons.injEq, Prod.mk.injEq,
    Json.num.injEq, Json.str.injEq, Json.bool.injEq, encStrList_eq_iff, encStrMap_eq_iff,
    hostConfig_toJson_inj.eq_iff, true_and, and_true] at h
  simp_all

/-! ## Helper lemmas about query-parameter keys -/

/-- Key membership distributes over appended parameter lists. -/
theorem hasKey_append (k : String) (ps qs : List (String × String)) :
    hasKey k (ps ++ qs) = (hasKey k ps || hasKey k qs) := by
  simp [hasKey, List.any_append]

/-- Key membership in a one-parameter cons cell. -/
theorem hasKey_cons (k k' v : String) (ps : List (String × String)) :
    hasKey k ((k', v) :: ps) = (k' == k || hasKey k ps) := by
  simp [hasKey]

/-- A boolean parameter appears exactly under its key, when truthy. -/
theorem hasKey_qBool (k k' : String) (v : Option Bool) :
    hasKey k (qBool k' v) = (k' == k && truthyB v) := by
  cases v with
  | none => simp [qBool, hasKey, truthyB]
  | some b => cases b <;> simp [qBool, hasKey, truthyB]

/-- A number parameter appears exactly under its key, when truthy. -/
theorem hasKey_qInt (k k' : String) (v : Option Int) :
    hasKey k (qInt k' v) = (k' == k && truthyI v) := by
  cases v with
  | none => simp [qInt, hasKey, truthyI]
  | some n => by_cases hn : n = 0 <;> simp [qInt, hasKey, truthyI, hn]

/-- A string parameter appears exactly under its key, when truthy. -/
theorem hasKey_qStr (k k' : String) (v : Option String) :
    hasKey k (qStr k' v) = (k' == k && truthyS v) := by
  cases v with
  | none => simp [qStr, hasKey, truthyS]
  | some s => by_cases hs : s = "" <;> simp [qStr, hasKey, truthyS, hs]

/-- A filter-map parameter appears exactly under its key, when
supplied. -/
theorem hasKey_qStrListMap (k k' : String) (v : Option (List (String × List String))) :
    hasKey k (qStrListMap k' v) = (k' == k && v.isSome) := by
  cases v <;> simp [qStrListMap, hasKey]

/-- A string-map parameter appears exactly under its key, when
supplied. -/
theorem hasKey_qStrMap (k k' : String) (v : Option (List (String × String))) :
    hasKey k (qStrMap k' v) = (k' == k && v.isSome) := by
  cases v <;> simp [qStrMap, hasKey]

/-- A string-array parameter appears exactly under its key, when
supplied. -/
theorem hasKey_qStrList (k k' : String) (v : Option (List String)) :
    hasKey k (qStrList k' v) = (k' == k && v.isSome) := by
  cases v <;> simp [qStrList, hasKey]

/-- An unset tag list contributes no parameter at all. -/
theorem hasKey_qTags_none (k : String) : hasKey k (qTags none) = false := rfl

/-- The `t` parameters contributed by the tag list: present only when the
list is supplied and nonempty, always under the key `t`. -/
theorem hasKey_qTags (k : String) (v : Option (List String)) :
    hasKey k (qTags v) = (("t" == k) && !(v.getD []).isEmpty) := by
  cases v with
  | none => simp [qTags, hasKey]
  | some ts =>
    induction ts with
    | nil => simp [qTags, hasKey]
    | cons hd tl ih =>
      cases hb : ("t" == k) <;> simp_all [qTags, hasKey]

/-! ## Discriminators used to state refutations without negations -/

/-- Whether a settled operation resolved with `undefined`. -/
def OpResult.resolvedUndefined : OpResult → Bool
  | .resolved none => true
  | _ => false

/-- Whether a settled operation rejected with the transport-error object
itself. -/
def OpResult.isRejectedTransportError : OpResult → Bool
  | .rejected (.axiosTransportError _) => true
  | _ => false

/-- Whether a settled operation rejected with the parsed response body
object (as opposed to a stream of it, or anything else). -/
def OpResult.isRejectedParsedBody : OpResult → Bool
  | .rejected (.thrown _) => true
  | _ => false

/-! ## Concrete sample data used by witnesses -/

/-- A concrete `HostConfig` with default-like values, used to instantiate
universally quantified theorems. -/
def sampleHostConfig : HostConfig :=
  ⟨[], [], 0, 0, 0, 0, 0, 0, 0, 0, 0, 0, "", "", 0, 0, 0, [], [], [], [], [], [], 0, false,
    0, "", 0, [], false, false, false, [], [], [], [], [], [], [], ⟨none, none⟩, false, "",
    [], [], ⟨none, none⟩, [], [], "", "", 0⟩

/-- A concrete `ContainerConfig`, used to instantiate universally
quantified theorems. -/
def sampleContainerConfig : ContainerConfig :=
  ⟨"", "", "", false, false, false, false, false, false, [], [], "", "alpine", [], [], "",
    false, "", [], "", 0, sampleHostConfig, []⟩

/-- A concrete `image.build` call: a one-byte buffer `0xFF` (not valid
UTF-8, as tar archives generally are not) and every optional argument
unset. -/
def buildExample : Op :=
  ImageModule.build "http://h" [0xFF] none none none none none none none none none none
    none none none none none none none none none none none none none none none none

/-- A daemon response body in the shape `/build` streams on success. -/
def buildProgressBody : Json := .obj [("stream", .str "Step 1/2 : FROM alpine")]

/-! ## The claims -/

/-- C1: `image.create` throws its local validation `Error` exactly when
both or neither of `binary` and `fromSrc` are supplied; when exactly one is
supplied no local error is raised and the HTTP request is produced. -/
theorem imageCreate_validation (url : String) (binary : Option Buffer)
    (authConfig : Option Json) (fromImage fromSrc repo tag message : Option String)
    (changes : Option (List String)) (platform : Option String) :
    (((binary = none ∧ fromSrc = none) ∨ (binary ≠ none ∧ fromSrc ≠ none)) →
      ImageModule.create url binary authConfig fromImage fromSrc repo tag message changes
        platform = .error (.jsError "Create mode is not clear. Use fromSrc or binary")) ∧
    (((binary = none ∧ fromSrc ≠ none) ∨ (binary ≠ none ∧ fromSrc = none)) →
      ∃ o, ImageModule.create url binary authConfig fromImage fromSrc repo tag message changes
        platform = .ok o) := by
  cases binary <;> cases fromSrc <;> simp [ImageModule.create]

/-- Witness for C1: with both `binary` and `fromSrc` supplied the local
error is thrown; with only `fromSrc` supplied the request is built. -/
theorem imageCreate_validation_witness :
    (ImageModule.create "http://localhost:2375" (some ([0x61] : Buffer)) none none
        (some "http://src") none none none none none =
      .error (.jsError "Create mode is not clear. Use fromSrc or binary")) ∧
    (∃ o, ImageModule.create "http://localhost:2375" none none none (some "http://src")
        none none none none none = .ok o) :=
  ⟨(imageCreate_validation _ _ _ _ _ _ _ _ _ _).1 (Or.inr ⟨by simp, by simp⟩),
   (imageCreate_validation _ _ _ _ _ _ _ _ _ _).2 (Or.inl ⟨rfl, by simp⟩)⟩

/-- C2 counterexample: `container.logs` passes `responseType: 'stream'`,
so on a 404 whose body is the JSON object with the `message` field, the
catch handler's `x.response.data` is a byte stream carrying that body, not
the parsed object: the operation rejects with the stream, refuting the
claim that every operation rejects with exactly the response body
object. -/
theorem logs_rejects_stream_not_body :
    (ContainerModule.logs "http://localhost:2375" "abc123" none none none none none none
        none).run (.http 404 (some (.obj [("message", .str "no such container")]))) =
      .rejected (.thrownStream (some (.obj [("message", .str "no such container")]))) ∧
    OpResult.isRejectedParsedBody
      ((ContainerModule.logs "http://localhost:2375" "abc123" none none none none none none
        none).run (.http 404 (some (.obj [("message", .str "no such container")]))))
      = false :=
  ⟨rfl, rfl⟩

/-- C2 amended: for a daemon response with status at least 400 carrying a
JSON body, every operation that leaves the axios `responseType` at its
default — that is, every operation of both modules except `logs` and
`backup` — rejects with exactly that body object, unwrapped; `logs` and
`backup`, which request `responseType: 'stream'`, reject with a byte
stream carrying the body instead of the parsed object. -/
theorem daemonError_rethrown_verbatim (o : Op) (s : Nat) (d : Json) (h : 400 ≤ s) :
    (o.responseType = .json →
      o.run (.http s (some d)) = .rejected (.thrown (some d))) ∧
    (o.responseType = .stream →
      o.run (.http s (some d)) = .rejected (.thrownStream (some d))) := by
  have hc : ¬(200 ≤ s ∧ s < 300) := by omega
  constructor <;> (intro hrt; simp [Op.run, hc, hrt])

/-- Witness for C2 amended: `container.list` and `image.inspect` (default
response type) reject with the daemon's `message` object on a 404, while
`container.logs` rejects with the stream. -/
theorem daemonError_rethrown_verbatim_witness :
    ((ContainerModule.list "http://localhost:2375" none none none none).run
        (.http 404 (some (.obj [("message", .str "no such container")]))) =
      .rejected (.thrown (some (.obj [("message", .str "no such container")])))) ∧
    ((ImageModule.inspect "http://localhost:2375" "alpine").run
        (.http 404 (some (.obj [("message", .str "no such image")]))) =
      .rejected (.thrown (some (.obj [("message", .str "no such image")])))) ∧
    ((ContainerModule.backup "http://localhost:2375" "abc123").run
        (.http 404 (some (.obj [("message", .str "no such container")]))) =
      .rejected (.thrownStream (some (.obj [("message", .str "no such container")])))) :=
  ⟨(daemonError_rethrown_verbatim _ 404 _ (by decide)).1 rfl,
   (daemonError_rethrown_verbatim _ 404 _ (by decide)).1 rfl,
   (daemonError_rethrown_verbatim _ 404 _ (by decide)).2 rfl⟩

/-- C3: for every url and id, `container.stats` appends exactly
`stream=false` and `one-shot=true`, and the built URL is
`(url)/containers/(id)/stats?stream=false&one-shot=true`. -/
theorem stats_forces_single_snapshot (url id : String) :
    (ContainerModule.stats url id).req.query = [("stream", "false"), ("one-shot", "true")] ∧
    (ContainerModule.stats url id).req.render =
      url ++ "/containers/" ++ id ++ "/stats?stream=false&one-shot=true" := by
  refine ⟨rfl, ?_⟩
  simp only [ContainerModule.stats, HttpRequest.render]
  rw [String.append_assoc]
  exact congrArg _ (by decide)

/-- C4 counterexample: `image.create` with `fromSrc` left unset (importing
from the supplied buffer) still sends a `fromSrc` query parameter, because
the source appends `fromSrc ?? '-'` unconditionally.  This refutes the
claim that every unset optional argument leaves the URL without a
corresponding parameter. -/
theorem imageCreate_fromSrc_sent_when_unset :
    (ImageModule.create "http://localhost:2375" (some ([0x61] : Buffer)) none none none none
        none none none none).map (fun o => hasKey "fromSrc" o.req.query) = .ok true := rfl

/-- C4 amended: for every operation in both modules and every optional
argument other than `fromSrc` of `image.create`, an argument left unset or
given a falsy value (false, 0, the empty string) contributes no query
parameter under its key. -/
theorem falsy_optionals_never_sent :
    (∀ (url : String) (all : Option Bool) (filters : Option (List (String × List String)))
        (sharedSize digests : Option Bool),
      (truthyB all = false →
        hasKey "all" (ImageModule.list url all filters sharedSize digests).req.query = false) ∧
      (filters = none →
        hasKey "filters" (ImageModule.list url all filters sharedSize digests).req.query = false) ∧
      (truthyB sharedSize = false →
        hasKey "sharedSize" (ImageModule.list url all filters sharedSize digests).req.query
          = false) ∧
      (truthyB digests = false →
        hasKey "digests" (ImageModule.list url all filters sharedSize digests).req.query
          = false)) ∧
    (∀ (url : String) (binary : Buffer) (contentType : Option String)
        (registryConfig : Option (List (String × RegistryCred)))
        (dockerfile : Option String) (tags : Option (List String))
        (extraHosts remote : Option String) (quiet noCache : Option Bool)
        (cacheFrom pull : Option String) (removeIntermediate forceRemoveIntermediate : Option Bool)
        (memoryLimit memorySwap cpuShares : Option Int) (cpuSetCpus : Option String)
        (cpuPeriod cpuQuota : Option Int) (buildArgs : Option (List (String × String)))
        (shmSize : Option Int) (squash : Option Bool) (labels : Option (List (String × String)))
        (networkMode platform target outputs : Option String),
      (truthyS dockerfile = false → hasKey "dockerfile"
        (ImageModule.build url binary contentType registryConfig dockerfile tags extraHosts
          remote quiet noCache cacheFrom pull removeIntermediate forceRemoveIntermediate
          memoryLimit memorySwap cpuShares cpuSetCpus cpuPeriod cpuQuota buildArgs shmSize
          squash labels networkMode platform target outputs).req.query = false) ∧
      (tags = none → hasKey "t"
        (ImageModule.build url binary contentType registryConfig dockerfile tags extraHosts
          remote quiet noCache cacheFrom pull removeIntermediate forceRemoveIntermediate
          memoryLimit memorySwap cpuShares cpuSetCpus cpuPeriod cpuQuota buildArgs shmSize
          squash labels networkMode platform target outputs).req.query = false) ∧
      (truthyS extraHosts = false → hasKey "extrahosts"
        (ImageModule.build url binary contentType registryConfig dockerfile tags extraHosts
          remote quiet noCache cacheFrom pull removeIntermediate forceRemoveIntermediate
          memoryLimit memorySwap cpuShares cpuSetCpus cpuPeriod cpuQuota buildArgs shmSize
          squash labels networkMode platform target outputs).req.query = false) ∧
      (truthyS remote = false → hasKey "remote"
        (ImageModule.build url binary contentType registryConfig dockerfile tags extraHosts
          remote quiet noCache cacheFrom pull removeIntermediate forceRemoveIntermediate
          memoryLimit memorySwap cpuShares cpuSetCpus cpuPeriod cpuQuota buildArgs shmSize
          squash labels networkMode platform target outputs).req.query = false) ∧
      (truthyB quiet = false → hasKey "q"
        (ImageModule.build url binary contentType registryConfig dockerfile tags extraHosts
          remote quiet noCache cacheFrom pull removeIntermediate forceRemoveIntermediate
          memoryLimit memorySwap cpuShares cpuSetCpus cpuPeriod cpuQuota buildArgs shmSize
          squash labels networkMode platform target outputs).req.query = false) ∧
      (truthyB noCache = false → hasKey "nocache"
        (ImageModule.build url binary contentType registryConfig dockerfile tags extraHosts
          remote quiet noCache cacheFrom pull removeIntermediate forceRemoveIntermediate
          memoryLimit memorySwap cpuShares cpuSetCpus cpuPeriod cpuQuota buildArgs shmSize
          squash labels networkMode platform target outputs).req.query = false) ∧
      (truthyS cacheFrom = false → hasKey "cachefrom"
        (ImageModule.build url binary contentType registryConfig dockerfile tags extraHosts
          remote quiet noCache cacheFrom pull removeIntermediate forceRemoveIntermediate
          memoryLimit memorySwap cpuShares cpuSetCpus cpuPeriod cpuQuota buildArgs shmSize
          squash labels networkMode platform target outputs).req.query = false) ∧
      (truthyS pull = false → hasKey "pull"
        (ImageModule.build url binary contentType registryConfig dockerfile tags extraHosts
          remote quiet noCache cacheFrom pull removeIntermediate forceRemoveIntermediate
          memoryLimit memorySwap cpuShares cpuSetCpus cpuPeriod cpuQuota buildArgs shmSize
          squash labels networkMode platform target outputs).req.query = false) ∧
      (truthyB removeIntermediate = false → hasKey "rm"
        (ImageModule.build url binary contentType registryConfig dockerfile tags extraHosts
          remote quiet noCache cacheFrom pull removeIntermediate forceRemoveIntermediate
          memoryLimit memorySwap cpuShares cpuSetCpus cpuPeriod cpuQuota buildArgs shmSize
          squash labels networkMode platform target outputs).req.query = false) ∧
      (truthyB forceRemoveIntermediate = false → hasKey "forcerm"
        (ImageModule.build url binary contentType registryConfig dockerfile tags extraHosts
          remote quiet noCache cacheFrom pull removeIntermediate forceRemoveIntermediate
          memoryLimit memorySwap cpuShares cpuSetCpus cpuPeriod cpuQuota buildArgs shmSize
          squash labels networkMode platform target outputs).req.query = false) ∧
      (truthyI memoryLimit = false → hasKey "memory"
        (ImageModule.build url binary contentType registryConfig dockerfile tags extraHosts
          remote quiet noCache cacheFrom pull removeIntermediate forceRemoveIntermediate
          memoryLimit memorySwap cpuShares cpuSetCpus cpuPeriod cpuQuota buildArgs shmSize
          squash labels networkMode platform target outputs).req.query = false) ∧
      (truthyI memorySwap = false → hasKey "memswap"
        (ImageModule.build url binary contentType registryConfig dockerfile tags extraHosts
          remote quiet noCache cacheFrom pull removeIntermediate forceRemoveIntermediate
          memoryLimit memorySwap cpuShares cpuSetCpus cpuPeriod cpuQuota buildArgs shmSize
          squash labels networkMode platform target outputs).req.query = false) ∧
      (truthyI cpuShares = false → hasKey "cpushares"
        (ImageModule.build url binary contentType registryConfig dockerfile tags extraHosts
          remote quiet noCache cacheFrom pull removeIntermediate forceRemoveIntermediate
          memoryLimit memorySwap cpuShares cpuSetCpus cpuPeriod cpuQuota buildArgs shmSize
          squash labels networkMode platform target outputs).req.query = false) ∧
      (truthyS cpuSetCpus = false → hasKey "cpusetcpus"
        (ImageModule.build url binary contentType registryConfig dockerfile tags extraHosts
          remote quiet noCache cacheFrom pull removeIntermediate forceRemoveIntermediate
          memoryLimit memorySwap cpuShares cpuSetCpus cpuPeriod cpuQuota buildArgs shmSize
          squash labels networkMode platform target outputs).req.query = false) ∧
      (truthyI cpuPeriod = false → hasKey "cpuperiod"
        (ImageModule.build url binary contentType registryConfig dockerfile tags extraHosts
          remote quiet noCache cacheFrom pull removeIntermediate forceRemoveIntermediate
          memoryLimit memorySwap cpuShares cpuSetCpus cpuPeriod cpuQuota buildArgs shmSize
          squash labels networkMode platform target outputs).req.query = false) ∧
      (truthyI cpuQuota = false → hasKey "cpuquota"
        (ImageModule.build url binary contentType registryConfig dockerfile tags extraHosts
          remote quiet noCache cacheFrom pull removeIntermediate forceRemoveIntermediate
          memoryLimit memorySwap cpuShares cpuSetCpus cpuPeriod cpuQuota buildArgs shmSize
          squash labels networkMode platform target outputs).req.query = false) ∧
      (buildArgs = none → hasKey "buildargs"
        (ImageModule.build url binary contentType registryConfig dockerfile tags extraHosts
          remote quiet noCache cacheFrom pull removeIntermediate forceRemoveIntermediate
          memoryLimit memorySwap cpuShares cpuSetCpus cpuPeriod cpuQuota buildArgs shmSize
          squash labels networkMode platform target outputs).req.query = false) ∧
      (truthyI shmSize = false → hasKey "shmsize"
        (ImageModule.build url binary contentType registryConfig dockerfile tags extraHosts
          remote quiet noCache cacheFrom pull removeIntermediate forceRemoveIntermediate
          memoryLimit memorySwap cpuShares cpuSetCpus cpuPeriod cpuQuota buildArgs shmSize
          squash labels networkMode platform target outputs).req.query = false) ∧
      (truthyB squash = false → hasKey "squash"
        (ImageModule.build url binary contentType registryConfig dockerfile tags extraHosts
          remote quiet noCache cacheFrom pull removeIntermediate forceRemoveIntermediate
          memoryLimit memorySwap cpuShares cpuSetCpus cpuPeriod cpuQuota buildArgs shmSize
          squash labels networkMode platform target outputs).req.query = false) ∧
      (labels = none → hasKey "labels"
        (ImageModule.build url binary contentType registryConfig dockerfile tags extraHosts
          remote quiet noCache cacheFrom pull removeIntermediate forceRemoveIntermediate
          memoryLimit memorySwap cpuShares cpuSetCpus cpuPeriod cpuQuota buildArgs shmSize
          squash labels networkMode platform target outputs).req.query = false) ∧
      (truthyS networkMode = false → hasKey "networkmode"
        (ImageModule.build url binary contentType registryConfig dockerfile tags extraHosts
          remote quiet noCache cacheFrom pull removeIntermediate forceRemoveIntermediate
          memoryLimit memorySwap cpuShares cpuSetCpus cpuPeriod cpuQuota buildArgs shmSize
          squash labels networkMode platform target outputs).req.query = false) ∧
      (truthyS platform = false → hasKey "platform"
        (ImageModule.build url binary contentType registryConfig dockerfile tags extraHosts
          remote quiet noCache cacheFrom pull removeIntermediate forceRemoveIntermediate
          memoryLimit memorySwap cpuShares cpuSetCpus cpuPeriod cpuQuota buildArgs shmSize
          squash labels networkMode platform target outputs).req.query = false) ∧
      (truthyS target = false → hasKey "target"
        (ImageModule.build url binary contentType registryConfig dockerfile tags extraHosts
          remote quiet noCache cacheFrom pull removeIntermediate forceRemoveIntermediate
          memoryLimit memorySwap cpuShares cpuSetCpus cpuPeriod cpuQuota buildArgs shmSize
          squash labels networkMode platform target outputs).req.query = false) ∧
      (truthyS outputs = false → hasKey "outputs"
        (ImageModule.build url binary contentType registryConfig dockerfile tags extraHosts
          remote quiet noCache cacheFrom pull removeIntermediate forceRemoveIntermediate
          memoryLimit memorySwap cpuShares cpuSetCpus cpuPeriod cpuQuota buildArgs shmSize
          squash labels networkMode platform target outputs).req.query = false)) ∧
    (∀ (url : String) (keepStorage : Option Int) (all : Option Bool)
        (filters : Option (List (String × List String))),
      (truthyI keepStorage = false →
        hasKey "keep-storage" (ImageModule.buildPrune url keepStorage all filters).req.query
          = false) ∧
      (truthyB all = false →
        hasKey "all" (ImageModule.buildPrune url keepStorage all filters).req.query = false) ∧
      (filters = none →
        hasKey "filters" (ImageModule.buildPrune url keepStorage all filters).req.query
          = false)) ∧
    (∀ (url : String) (binary : Option Buffer) (authConfig : Option Json)
        (fromImage fromSrc repo tag message : Option String) (changes : Option (List String))
        (platform : Option String) (o : Op),
      ImageModule.create url binary authConfig fromImage fromSrc repo tag message changes
        platform = .ok o →
      (truthyS fromImage = false → hasKey "fromImage" o.req.query = false) ∧
      (truthyS repo = false → hasKey "repo" o.req.query = false) ∧
      (truthyS tag = false → hasKey "tag" o.req.query = false) ∧
      (truthyS message = false → hasKey "message" o.req.query = false) ∧
      (changes = none → hasKey "changes" o.req.query = false) ∧
      (truthyS platform = false → hasKey "platform" o.req.query = false)) ∧
    (∀ (url : String) (all : Option Bool) (limit : Option Int) (size : Option Bool)
        (filters : Option (List (String × List String))),
      (truthyB all = false →
        hasKey "all" (ContainerModule.list url all limit size filters).req.query = false) ∧
      (truthyI limit = false →
        hasKey "limit" (ContainerModule.list url all limit size filters).req.query = false) ∧
      (truthyB size = false →
        hasKey "size" (ContainerModule.list url all limit size filters).req.query = false) ∧
      (filters = none →
        hasKey "filters" (ContainerModule.list url all limit size filters).req.query
          = false)) ∧
    (∀ (url : String) (containerConfig : ContainerConfig) (name platform : Option String),
      (truthyS name = false →
        hasKey "name" (ContainerModule.create url containerConfig name platform).req.query
          = false) ∧
      (truthyS platform = false →
        hasKey "platform" (ContainerModule.create url containerConfig name platform).req.query
          = false)) ∧
    (∀ (url id : String) (size : Option Bool),
      truthyB size = false →
        hasKey "size" (ContainerModule.inspect url id size).req.query = false) ∧
    (∀ (url id : String) (psArgs : Option String),
      truthyS psArgs = false →
        hasKey "ps_args" (ContainerModule.top url id psArgs).req.query = false) ∧
    (∀ (url id : String) (follow stdout stderr : Option Bool) (since untilTime : Option Int)
        (timestamps : Option Bool) (tail : Option String),
      (truthyB follow = false → hasKey "follow"
        (ContainerModule.logs url id follow stdout stderr since untilTime timestamps
          tail).req.query = false) ∧
      (truthyB stdout = false → hasKey "stdout"
        (ContainerModule.logs url id follow stdout stderr since untilTime timestamps
          tail).req.query = false) ∧
      (truthyB stderr = false → hasKey "stderr"
        (ContainerModule.logs url id follow stdout stderr since untilTime timestamps
          tail).req.query = false) ∧
      (truthyI since = false → hasKey "since"
        (ContainerModule.logs url id follow stdout stderr since untilTime timestamps
          tail).req.query = false) ∧
      (truthyI untilTime = false → hasKey "until"
        (ContainerModule.logs url id follow stdout stderr since untilTime timestamps
          tail).req.query = false) ∧
      (truthyB timestamps = false → hasKey "timestamps"
        (ContainerModule.logs url id follow stdout stderr since untilTime timestamps
          tail).req.query = false) ∧
      (truthyS tail = false → hasKey "tail"
        (ContainerModule.logs url id follow stdout stderr since untilTime timestamps
          tail).req.query = false)) ∧
    (∀ (url id : String) (timeout : Option Int),
      truthyI timeout = false →
        hasKey "t" (ContainerModule.stop url id timeout).req.query = false) ∧
    (∀ (url id : String) (timeout : Option Int),
      truthyI timeout = false →
        hasKey "t" (ContainerModule.restart url id timeout).req.query = false) ∧
    (∀ (url id : String) (signal : Option String),
      truthyS signal = false →
        hasKey "signal" (ContainerModule.kill url id signal).req.query = false) := by
  refine ⟨?_, ?_, ?_, ?_, ?_, ?_, ?_, ?_, ?_, ?_, ?_, ?_⟩
  · intro url all filters sharedSize digests
    refine ⟨?_, ?_, ?_, ?_⟩ <;>
      (intro h
       simp [ImageModule.list, hasKey_append, hasKey_qBool, hasKey_qStrListMap, h])
  · intro url binary contentType registryConfig dockerfile tags extraHosts remote quiet
      noCache cacheFrom pull removeIntermediate forceRemoveIntermediate memoryLimit
      memorySwap cpuShares cpuSetCpus cpuPeriod cpuQuota buildArgs shmSize squash labels
      networkMode platform target outputs
    refine ⟨?_, ?_, ?_, ?_, ?_, ?_, ?_, ?_, ?_, ?_, ?_, ?_, ?_, ?_, ?_, ?_, ?_, ?_, ?_,
      ?_, ?_, ?_, ?_, ?_⟩ <;>
      (intro h
       simp [ImageModule.build, hasKey_append, hasKey_qBool, hasKey_qInt, hasKey_qStr,
         hasKey_qStrMap, hasKey_qTags, h])
  · intro url keepStorage all filters
    refine ⟨?_, ?_, ?_⟩ <;>
      (intro h
       simp [ImageModule.buildPrune, hasKey_append, hasKey_qBool, hasKey_qInt,
         hasKey_qStrListMap, h])
  · intro url binary authConfig fromImage fromSrc repo tag message changes platform o hok
    revert hok
    unfold ImageModule.create
    split
    · intro hok
      exact Except.noConfusion hok
    · intro hok
      cases hok
      refine ⟨?_, ?_, ?_, ?_, ?_, ?_⟩ <;>
        (intro h
         simp [hasKey_cons, hasKey_append, hasKey_qStr, hasKey_qStrList, h])
  · intro url all limit size filters
    refine ⟨?_, ?_, ?_, ?_⟩ <;>
      (intro h
       simp [ContainerModule.list, hasKey_append, hasKey_qBool, hasKey_qInt,
         hasKey_qStrListMap, h])
  · intro url containerConfig name platform
    refine ⟨?_, ?_⟩ <;>
      (intro h
       simp [ContainerModule.create, hasKey_append, hasKey_qStr, h])
  · intro url id size h
    simp [ContainerModule.inspect, hasKey_qBool, h]
  · intro url id psArgs h
    simp [ContainerModule.top, hasKey_qStr, h]
  · intro url id follow stdout stderr since untilTime timestamps tail
    refine ⟨?_, ?_, ?_, ?_, ?_, ?_, ?_⟩ <;>
      (intro h
       simp [ContainerModule.logs, hasKey_append, hasKey_qBool, hasKey_qInt, hasKey_qStr, h])
  · intro url id timeout h
    simp [ContainerModule.stop, hasKey_qInt, h]
  · intro url id timeout h
    simp [ContainerModule.restart, hasKey_qInt, h]
  · intro url id signal h
    simp [ContainerModule.kill, hasKey_qStr, h]

/-- Witness for C4 amended: `container.list` with `all = false` sends no
`all` parameter, and `image.build` with no tag list sends no `t`
parameter. -/
theorem falsy_optionals_never_sent_witness :
    hasKey "all"
      (ContainerModule.list "http://localhost:2375" (some false) none none none).req.query
      = false ∧
    hasKey "t"
      (ImageModule.build "http://h" ([0x61] : Buffer) none none none none none none none
        none none none none none none none none none none none none none none none none
        none none none).req.query = false :=
  ⟨(falsy_optionals_never_sent.2.2.2.2.1 "http://localhost:2375" (some false) none none
      none).1 rfl,
   (falsy_optionals_never_sent.2.1 "http://h" ([0x61] : Buffer) none none none none none
      none none none none none none none none none none none none none none none none
      none none none none none).2.1 rfl⟩

/-- C5: truthy optional arguments of `container.list` are appended under
the daemon-documented keys with the string-serialized values (booleans as
`true`, numbers in decimal, maps as compact JSON), and the scenario
`container.list(url, true, 5, true, (status : [running]))` builds a GET to
`(url)/containers/json?all=true&limit=5&size=true&filters=%7B%22status%22%3A%5B%22running%22%5D%7D`. -/
theorem truthy_params_serialized (url : String) (all : Option Bool) (limit : Option Int)
    (size : Option Bool) (filters : Option (List (String × List String))) :
    (ContainerModule.list url all limit size filters).req.method = .GET ∧
    (all = some true →
      ("all", "true") ∈ (ContainerModule.list url all limit size filters).req.query) ∧
    (∀ n : Int, n ≠ 0 → limit = some n →
      ("limit", toString n) ∈ (ContainerModule.list url all limit size filters).req.query) ∧
    (size = some true →
      ("size", "true") ∈ (ContainerModule.list url all limit size filters).req.query) ∧
    (∀ m : List (String × List String), filters = some m →
      ("filters", (encStrListMap m).stringify) ∈
        (ContainerModule.list url all limit size filters).req.query) ∧
    (ContainerModule.list url (some true) (some 5) (some true)
        (some [("status", ["running"])])).req.render =
      url ++ "/containers/json?all=true&limit=5&size=true&filters=%7B%22status%22%3A%5B%22running%22%5D%7D" := by
  refine ⟨rfl, ?_, ?_, ?_, ?_, ?_⟩
  · intro h
    subst h
    simp [ContainerModule.list, qBool]
  · intro n hn h
    subst h
    simp [ContainerModule.list, qInt, hn]
  · intro h
    subst h
    simp [ContainerModule.list, qBool]
  · intro m h
    subst h
    simp [ContainerModule.list, qStrListMap]
  · simp only [ContainerModule.list, HttpRequest.render]
    rw [String.append_assoc]
    exact congrArg _ (by decide)

/-- Witness for C5: the supplied truthy arguments of the scenario call all
appear in the query. -/
theorem truthy_params_serialized_witness :
    ("all", "true") ∈ (ContainerModule.list "http://h" (some true) (some 5) (some true)
      (some [("status", ["running"])])).req.query ∧
    ("limit", toString (5 : Int)) ∈ (ContainerModule.list "http://h" (some true) (some 5)
      (some true) (some [("status", ["running"])])).req.query ∧
    ("filters", (encStrListMap [("status", ["running"])]).stringify) ∈
      (ContainerModule.list "http://h" (some true) (some 5) (some true)
        (some [("status", ["running"])])).req.query :=
  ⟨(truthy_params_serialized "http://h" (some true) (some 5) (some true)
      (some [("status", ["running"])])).2.1 rfl,
   (truthy_params_serialized "http://h" (some true) (some 5) (some true)
      (some [("status", ["running"])])).2.2.1 5 (by decide) rfl,
   (truthy_params_serialized "http://h" (some true) (some 5) (some true)
      (some [("status", ["running"])])).2.2.2.2.1 [("status", ["running"])] rfl⟩

/-- C6: `container.create` sends exactly the JSON serialization of the
input configuration as its body; the serialization keeps every declared
field under its exact source name in declaration order and is injective,
so the body is the input configuration unmodified — no field renaming, no
defaulting, no mutation. -/
theorem containerCreate_body_passthrough (url : String) (cfg : ContainerConfig)
    (name platform : Option String) :
    (ContainerModule.create url cfg name platform).req.body = some (.json cfg.toJson) ∧
    (ContainerModule.create url cfg name platform).req.baseUrl = url ++ "/containers/create" ∧
    Json.objKeys cfg.toJson = ["Hostname", "Domainname", "User", "AttachStdin",
      "AttachStdout", "AttachStderr", "Tty", "OpenStdin", "StdinOnce", "Env", "Cmd",
      "Entrypoint", "Image", "Labels", "Volumes", "WorkingDir", "NetworkDisabled",
      "MacAddress", "ExposedPorts", "StopSignal", "StopTimeout", "HostConfig",
      "NetworkingConfig"] ∧
    (∀ cfg' : ContainerConfig, cfg.toJson = cfg'.toJson → cfg = cfg') :=
  ⟨rfl, rfl, rfl, fun _ h => containerConfig_toJson_inj h⟩

/-- Witness for C6 at the concrete sample configuration. -/
theorem containerCreate_body_passthrough_witness :
    (ContainerModule.create "http://h" sampleContainerConfig none none).req.body =
      some (.json sampleContainerConfig.toJson) ∧
    sampleContainerConfig = sampleContainerConfig :=
  ⟨(containerCreate_body_passthrough "http://h" sampleContainerConfig none none).1,
   (containerCreate_body_passthrough "http://h" sampleContainerConfig none none).2.2.2
     sampleContainerConfig rfl⟩

/-- C7 (code bug): evaluated at the failing input — a one-byte buffer
`0xFF` and a 200 response with a build-progress body — `image.build` POSTs
to `(url)/build` but its body is `binary.toString()`, the UTF-8
replacement decoding of the buffer: the wire bytes are `EF BF BD`, not the
original byte `FF`, while the `Content-Length` header still announces the
original length 1; and on the 2xx response the operation resolves with the
response data, not with `undefined` as its own documentation and type
annotation state. -/
theorem build_sends_decoded_string_and_resolves_data :
    buildExample.req.method = .POST ∧
    buildExample.req.baseUrl = "http://h" ++ "/build" ∧
    buildExample.req.body = some (.text "�") ∧
    Body.wireBytes (.text "�") = [0xEF, 0xBF, 0xBD] ∧
    (([0xEF, 0xBF, 0xBD] : List Nat) == [0xFF]) = false ∧
    ("Content-Length", some "1") ∈ buildExample.req.headers ∧
    buildExample.run (.http 200 (some buildProgressBody)) =
      .resolved (some buildProgressBody) ∧
    (buildExample.run (.http 200 (some buildProgressBody))).resolvedUndefined = false :=
  ⟨rfl, rfl, rfl, by decide, by decide, by decide, rfl, rfl⟩

/-- C8: `container.start(url, id)` issues a POST to
`(url)/containers/(id)/start` with no body, and each of the state/action
operations start, stop, restart, kill, pause and rename resolves with
`undefined` on every 2xx response. -/
theorem action_ops_resolve_undefined :
    (∀ url id : String,
      (ContainerModule.start url id).req.method = .POST ∧
      (ContainerModule.start url id).req.body = none ∧
      (ContainerModule.start url id).req.render = url ++ "/containers/" ++ id ++ "/start") ∧
    (∀ (url id : String) (s : Nat) (d : Option Json), 200 ≤ s → s < 300 →
      (ContainerModule.start url id).run (.http s d) = .resolved none) ∧
    (∀ (url id : String) (timeout : Option Int) (s : Nat) (d : Option Json),
      200 ≤ s → s < 300 →
      (ContainerModule.stop url id timeout).run (.http s d) = .resolved none) ∧
    (∀ (url id : String) (timeout : Option Int) (s : Nat) (d : Option Json),
      200 ≤ s → s < 300 →
      (ContainerModule.restart url id timeout).run (.http s d) = .resolved none) ∧
    (∀ (url id : String) (signal : Option String) (s : Nat) (d : Option Json),
      200 ≤ s → s < 300 →
      (ContainerModule.kill url id signal).run (.http s d) = .resolved none) ∧
    (∀ (url id : String) (s : Nat) (d : Option Json), 200 ≤ s → s < 300 →
      (ContainerModule.pause url id).run (.http s d) = .resolved none) ∧
    (∀ (url id name : String) (s : Nat) (d : Option Json), 200 ≤ s → s < 300 →
      (ContainerModule.rename url id name).run (.http s d) = .resolved none) := by
  refine ⟨?_, ?_, ?_, ?_, ?_, ?_, ?_⟩
  · intro url id
    refine ⟨rfl, rfl, ?_⟩
    simp only [ContainerModule.start, HttpRequest.render, renderQuery]
    exact String.append_empty _
  · intro url id s d h1 h2
    have hc : 200 ≤ s ∧ s < 300 := ⟨h1, h2⟩
    simp [Op.run, hc, ContainerModule.start]
  · intro url id timeout s d h1 h2
    have hc : 200 ≤ s ∧ s < 300 := ⟨h1, h2⟩
    simp [Op.run, hc, ContainerModule.stop]
  · intro url id timeout s d h1 h2
    have hc : 200 ≤ s ∧ s < 300 := ⟨h1, h2⟩
    simp [Op.run, hc, ContainerModule.restart]
  · intro url id signal s d h1 h2
    have hc : 200 ≤ s ∧ s < 300 := ⟨h1, h2⟩
    simp [Op.run, hc, ContainerModule.kill]
  · intro url id s d h1 h2
    have hc : 200 ≤ s ∧ s < 300 := ⟨h1, h2⟩
    simp [Op.run, hc, ContainerModule.pause]
  · intro url id name s d h1 h2
    have hc : 200 ≤ s ∧ s < 300 := ⟨h1, h2⟩
    simp [Op.run, hc, ContainerModule.rename]

/-- Witness for C8: the scenario call `container.start(url, "abc123")` on a
204 response, and one of each other action operation. -/
theorem action_ops_resolve_undefined_witness :
    (ContainerModule.start "http://h" "abc123").req.render =
      "http://h" ++ "/containers/" ++ "abc123" ++ "/start" ∧
    (ContainerModule.start "http://h" "abc123").run (.http 204 none) = .resolved none ∧
    (ContainerModule.rename "http://h" "abc123" "newname").run
      (.http 204 (some (.str "ignored"))) = .resolved none :=
  ⟨(action_ops_resolve_undefined.1 "http://h" "abc123").2.2,
   action_ops_resolve_undefined.2.1 "http://h" "abc123" 204 none (by decide) (by decide),
   action_ops_resolve_undefined.2.2.2.2.2.2 "http://h" "abc123" "newname" 204
     (some (.str "ignored")) (by decide) (by decide)⟩

/-- C9 counterexample: on a transport failure (no daemon response at all),
`image.list` does not reject with the transport error the HTTP client
produced: the shared catch handler evaluates `x.response.data` on the
undefined `response`, so the operation rejects with a TypeError instead. -/
theorem transport_error_not_propagated :
    (ImageModule.list "http://localhost:2375" none none none none).run
      (.transportFail "connect ECONNREFUSED 127.0.0.1:2375") =
      .rejected (.typeErrorUndefinedRead "data") ∧
    ((ImageModule.list "http://localhost:2375" none none none none).run
      (.transportFail "connect ECONNREFUSED 127.0.0.1:2375")).isRejectedTransportError
      = false :=
  ⟨rfl, rfl⟩

/-- C9 amended: on a transport failure carrying no daemon response, every
operation rejects with the TypeError raised by reading `data` from the
undefined `response` inside the catch handler, regardless of what the
transport error was. -/
theorem transport_error_rejects_typeError (o : Op) (m : String) :
    o.run (.transportFail m) = .rejected (.typeErrorUndefinedRead "data") := rfl

/-- C10: on every 2xx response, `container.prune` resolves with
`undefined`, discarding the daemon's response body entirely. -/
theorem prune_discards_response (url : String) (s : Nat) (d : Json)
    (h1 : 200 ≤ s) (h2 : s < 300) :
    (ContainerModule.prune url).run (.http s (some d)) = .resolved none := by
  have hc : 200 ≤ s ∧ s < 300 := ⟨h1, h2⟩
  simp [Op.run, hc, ContainerModule.prune]

/-- Witness for C10: the deleted-containers body of a 200 response is
discarded. -/
theorem prune_discards_response_witness :
    (ContainerModule.prune "http://h").run (.http 200 (some (.obj
      [("ContainersDeleted", .arr [.str "abc123"]), ("SpaceReclaimed", .num 1024)]))) =
      .resolved none :=
  prune_discards_response "http://h" 200 _ (by decide) (by decide)

end DockerEngineAccess
